import Mathlib

/-!
Verification development for the nonlocal damage-plasticity local assembler and the
ThermoPlasticBDT constitutive integration engine.

Shallow embedding of:
* MaterialLib/SolidModels/ThermoPlasticBDT-impl.h (yield function, hardening,
  trial-stress prediction, stress integration control flow, damage laws),
* ProcessLib/SmallDeformationNonlocal/SmallDeformationNonlocalFEM.h and
  ProcessLib/SmallDeformationNonlocalHydroMechanics/SmallDeformationNonlocalHydroMechanicsFEM.h
  (nonlocal kernel weights, discovery phase, partition-of-unity check),
* ProcessLib/SmallDeformationNonlocal/IntegrationPointData.h (state commit).

Real-valued material computations are modelled over the reals; the purely rational
nonlocal-weight computations are modelled over the rationals so that concrete instances
evaluate by decide.  The fixed displacement dimension is 3, so Kelvin vectors have
six components.
-/

namespace OgsSpec

open scoped Classical

/-- Kelvin-mapped symmetric tensor in three dimensions: a six-component real vector. -/
abbrev KelvinVector : Type := Fin 6 → ℝ

/-- Kelvin-mapped fourth-order tensor: a six-by-six real matrix, represented functionally. -/
abbrev KelvinMatrix : Type := Fin 6 → Fin 6 → ℝ

/-- Modelled from the spec: the MathLib KelvinVector invariant utilities are not under
src/.  The spec (section 4.1 and glossary) defines them as trace, deviatoric projection
and second invariant over the Kelvin mapping, which preserves inner products.
The second-rank identity in Kelvin mapping: ones on the three diagonal slots. -/
def identity2 : KelvinVector := fun i => if i.val < 3 then 1 else 0

/-- Modelled from the spec: trace of a Kelvin-mapped tensor is the sum of the three
diagonal components. -/
def trace (v : KelvinVector) : ℝ := v 0 + v 1 + v 2

/-- Modelled from the spec: the deviatoric projection subtracts one third of the trace
from the diagonal components. -/
noncomputable def deviatoric_projection (v : KelvinVector) : KelvinVector :=
  fun i => v i - trace v / 3 * identity2 i

/-- Squared Euclidean norm of a Kelvin vector, as used by the Eigen squaredNorm call. -/
def squaredNorm (v : KelvinVector) : ℝ := ∑ i, v i * v i

/-- Modelled from the spec: second invariant of a deviatoric Kelvin vector,
J2 equals one half of the inner product of the deviatoric part with itself. -/
noncomputable def J2 (v : KelvinVector) : ℝ := 1 / 2 * squaredNorm v

/-- Material properties snapshot used by one call of integrateStress
(ThermoPlasticBDT-impl.h).  The fields are the scalar parameters the embedded
functions read. -/
structure MaterialProperties where
  G : ℝ
  K : ℝ
  m : ℝ
  fc : ℝ
  qp0 : ℝ
  alpha : ℝ
  n : ℝ
  t0 : ℝ
  temp : ℝ
  tangent_type : ℤ

/-- Plastic strain state: deviatoric part, volumetric part and effective
(accumulated) plastic strain. -/
structure PlasticStrainVars where
  D : KelvinVector
  V : ℝ
  eff : ℝ

/-- Modelled from the spec: the ThermoPlasticBDT StateVariables class is declared in a
header that is not under src/; the spec (section 3) gives it a current and a
previous-step plastic strain, a damage scalar and the damage driving variable kappa_d. -/
structure StateVariables where
  eps_p : PlasticStrainVars
  eps_p_prev : PlasticStrainVars
  damage : ℝ
  kappa_d : ℝ

/-- The temperature-dependent factor qh shared by the yield function and the plastic
flow (ThermoPlasticBDT-impl.h lines 135-138):
qh = qp0 / (1 + (alpha*(temp - t0))^n)^(1 - 1/n). -/
noncomputable def qhFactor (mp : MaterialProperties) : ℝ :=
  mp.qp0 / (1 + (mp.alpha * (mp.temp - mp.t0)) ^ mp.n) ^ (1 - 1 / mp.n)

/-- Physical stress with invariants (ThermoPlasticBDT-impl.h lines 57-81): the stress,
its deviatoric part, the trace I_1 and the second deviatoric invariant J_2.
The third invariant J_3 is computed by the source but not read by any embedded
function, so it is omitted. -/
structure PhysicalStressWithInvariants where
  value : KelvinVector
  D : KelvinVector
  I_1 : ℝ
  J_2 : ℝ

/-- Constructor of PhysicalStressWithInvariants from a stress Kelvin vector. -/
noncomputable def mkPhysicalStress (stress : KelvinVector) : PhysicalStressWithInvariants :=
  ⟨stress, deviatoric_projection stress, trace stress, J2 (deviatoric_projection stress)⟩

/-- Yield function (ThermoPlasticBDT-impl.h lines 128-143).  The hardening argument k
is accepted but, exactly as in the source, never read. -/
noncomputable def yieldFunction (mp : MaterialProperties) (s : PhysicalStressWithInvariants)
    (k : ℝ) : ℝ :=
  ((1 - qhFactor mp) * ((Real.sqrt (3 * s.J_2) + s.I_1) / (3 * mp.fc)) ^ 2 +
      Real.sqrt (3 * s.J_2) / mp.fc) ^ 2 +
    mp.m * qhFactor mp ^ 2 * ((Real.sqrt (3 * s.J_2) + s.I_1) / (3 * mp.fc)) -
    qhFactor mp ^ 2

/-- Isotropic hardening (ThermoPlasticBDT-impl.h lines 420-424):
returns m0 * (1 + eps_p_eff * 0). -/
def calculateIsotropicHardening (m0 : ℝ) (eps_p_eff : ℝ) : ℝ :=
  m0 * (1 + eps_p_eff * 0)

/-- Trial (elastic) stress prediction (ThermoPlasticBDT-impl.h lines 426-454).
The returned vector is dimensionless: the physical stress is G times it. -/
noncomputable def predict_sigma (G K : ℝ) (sigma_prev eps eps_prev : KelvinVector)
    (eps_V : ℝ) : KelvinVector :=
  fun i =>
    (1 / G * deviatoric_projection sigma_prev i +
        2 * deviatoric_projection (eps - eps_prev) i) -
      (trace sigma_prev / (-3 * G) - K / G * (eps_V - trace eps_prev)) * identity2 i

/-- The elastic-stiffness assignment used by both the elastic branch (lines 518-521)
and the tangent_type = 0 branch (lines 666-668): the top left three-by-three block is
overwritten with K - 2/3 G, then 2 G times the identity is added to the whole matrix. -/
noncomputable def setElasticTangent (K G : ℝ) (C : KelvinMatrix) : KelvinMatrix :=
  fun i j => (if i.val < 3 ∧ j.val < 3 then K - 2 / 3 * G else C i j) +
    (if i = j then 2 * G else 0)

/-- The isotropic elastic stiffness: the elastic-tangent assignment applied to the
zero matrix, as in the elastic branch where the matrix is zeroed first. -/
noncomputable def elasticStiffness (K G : ℝ) : KelvinMatrix :=
  fun i j => (if i.val < 3 ∧ j.val < 3 then K - 2 / 3 * G else 0) +
    (if i = j then 2 * G else 0)

/-- The early-exit condition of integrateStress (ThermoPlasticBDT-impl.h lines 514-516):
the dimensionless trial stress has zero squared norm, or the yield function evaluated at
the physical trial stress and the isotropic hardening value is negative. -/
noncomputable def elasticCondition (mp : MaterialProperties) (eps_p_eff : ℝ)
    (sigma : KelvinVector) : Prop :=
  squaredNorm sigma = 0 ∨
    yieldFunction mp (mkPhysicalStress (mp.G • sigma))
      (calculateIsotropicHardening mp.m eps_p_eff) < 0

/-- Splitting of the agglomerated Newton solution vector
(ThermoPlasticBDT-impl.h lines 456-468): stress, plastic strain, plastic multiplier. -/
def splitSolutionVector (solution : Fin 15 → ℝ) : KelvinVector × PlasticStrainVars × ℝ :=
  (fun i => solution ⟨i.val, by omega⟩,
   ⟨fun i => solution ⟨6 + i.val, by omega⟩, solution ⟨12, by omega⟩, solution ⟨13, by omega⟩⟩,
   solution ⟨14, by omega⟩)

/-- Modelled from the spec: the NumLib NewtonRaphson solver is not under src/.
Per the spec (section 4.3), the iteration updates the unknown vector and terminates
when the residual norm falls below the tolerance, or fails once the iteration count
exceeds the configured maximum.  The fuel argument is the remaining iteration budget. -/
noncomputable def newtonSolve {A : Type} (resNorm : A → ℝ) (tol : ℝ) (update : A → A) :
    Nat → A → Option A
  | 0, _ => none
  | Nat.succ fuel, x =>
      if resNorm x < tol then some x else newtonSolve resNorm tol update fuel (update x)

/-- Outcome of one stress integration: a fatal configuration error (OGS_FATAL),
a nonconvergent Newton solve (the empty boost::optional), or a successful result
carrying the final stress, the tangent, and whether the plastic solve ran. -/
inductive IntegrateOutcome where
  | fatal (msg : String)
  | nonconverged
  | ok (sigma : KelvinVector) (C : KelvinMatrix) (plastic : Bool)

/-- Stress integration control flow (ThermoPlasticBDT-impl.h lines 470-690).
The numeric inner Newton solve and the factorized-Jacobian tangent are performed by
external numeric libraries; their outcomes enter as the newtonOutcome argument
(the solution as split by splitSolutionVector, the multiplier discarded) and the
plasticTangent argument (G times the solved tangent block).  Everything else follows
the source: early exit with the elastic stiffness when the trial state is elastic,
empty result on nonconvergence, then the tangent_type dispatch. -/
noncomputable def integrateStress (mp : MaterialProperties) (state : StateVariables)
    (eps_prev eps sigma_prev : KelvinVector)
    (newtonOutcome : Option (KelvinVector × PlasticStrainVars))
    (plasticTangent : KelvinMatrix) : IntegrateOutcome :=
  if elasticCondition mp state.eps_p.eff
      (predict_sigma mp.G mp.K sigma_prev eps eps_prev (trace eps)) then
    IntegrateOutcome.ok
      (mp.G • predict_sigma mp.G mp.K sigma_prev eps eps_prev (trace eps))
      (setElasticTangent mp.K mp.G 0) false
  else
    match newtonOutcome with
    | none => IntegrateOutcome.nonconverged
    | some sol =>
        if mp.tangent_type = 0 then
          IntegrateOutcome.ok (mp.G • sol.1) (setElasticTangent mp.K mp.G plasticTangent) true
        else if mp.tangent_type = 1 then
          IntegrateOutcome.ok (mp.G • sol.1) ((1 - state.damage) • plasticTangent) true
        else if mp.tangent_type = 2 then
          IntegrateOutcome.ok (mp.G • sol.1) plasticTangent true
        else
          IntegrateOutcome.fatal
            "Inadmissible value for tangent_type: 0 = Elastic; 1 = Plastic-Damage secant; 2 = Plastic."

/-- The caller side in preAssemble (SmallDeformationNonlocalFEM.h lines 338-346):
an empty integration result is a fatal condition; a fatal outcome of the integration
itself has already aborted. -/
def preAssembleCheck (r : IntegrateOutcome) : Except String (KelvinVector × KelvinMatrix) :=
  match r with
  | IntegrateOutcome.fatal msg => Except.error msg
  | IntegrateOutcome.nonconverged =>
      Except.error "Computation of local constitutive relation failed."
  | IntegrateOutcome.ok sigma C _ => Except.ok (sigma, C)

/-- Damage properties snapshot (alpha_d, beta_d, h_d, m_d). -/
structure DamageProperties where
  alpha_d : ℝ
  beta_d : ℝ
  h_d : ℝ
  m_d : ℝ

/-- Damage evaluation (ThermoPlasticBDT-impl.h lines 837-851):
damage = (1 - beta_d) * (1 - exp(-kappa_d / alpha_d)).  The value is returned
unchanged; an out-of-range value is only reported by the ERR log call. -/
noncomputable def calculateDamage (dp : DamageProperties) (kappa_d : ℝ) : ℝ :=
  (1 - dp.beta_d) * (1 - Real.exp (-kappa_d / dp.alpha_d))

/-- The condition under which calculateDamage emits its ERR log line
(ThermoPlasticBDT-impl.h lines 847-848). -/
noncomputable def damageOutOfRange (dp : DamageProperties) (kappa_d : ℝ) : Prop :=
  calculateDamage dp kappa_d < 0 ∨ 1 < calculateDamage dp kappa_d

/-- The brittleness factor x_s of calculateDamageKappaD
(ThermoPlasticBDT-impl.h lines 820-832). -/
noncomputable def damage_x_s (h_d r_s : ℝ) : ℝ :=
  if r_s < 1 then 1
  else if 1 ≤ r_s ∧ r_s ≤ 2 then 1 + h_d * (r_s - 1) * (r_s - 1)
  else 1 - 3 * h_d + 4 * h_d * Real.sqrt (r_s - 1)

/-- Damage driving variable update (ThermoPlasticBDT-impl.h lines 775-835).
Modelled from the spec in one respect: the principal stresses are obtained by an
external eigenvalue solver that is not part of the sources, so the function takes
the real parts of the principal stresses directly; the source then sums their
squares, forms r_s = sqrt(prod_stress) / f_t with f_t = fc, and returns
kappa_d_prev + eps_p_eff_diff / x_s. -/
noncomputable def calculateDamageKappaD (dp : DamageProperties) (fc : ℝ)
    (principal : Fin 3 → ℝ) (eps_p_eff_diff kappa_d_prev : ℝ) : ℝ :=
  kappa_d_prev +
    eps_p_eff_diff /
      damage_x_s dp.h_d (Real.sqrt (∑ i, principal i * principal i) / fc)

/-!
Nonlocal averaging.  The kernel-weight computations are rational, so they are
embedded over the rationals; a neighbour candidate is represented by its integration
weight and its squared distance to the current integration point k.
-/

/-- Unnormalized kernel weight of the plain small-deformation assembler
(SmallDeformationNonlocalFEM.h lines 122-130): the squared internal length is
computed from the internal length, the weight is (1 - d2/L2)^2 for d2 not above L2,
else zero. -/
def alpha_0 (internal_length distance2 : ℚ) : ℚ :=
  if distance2 > internal_length * internal_length then 0
  else
    (1 - distance2 / (internal_length * internal_length)) *
      (1 - distance2 / (internal_length * internal_length))

/-- Unnormalized kernel weight of the hydromechanics assembler
(SmallDeformationNonlocalHydroMechanicsFEM.h lines 188-195), which receives the
squared internal length directly. -/
def alpha_0_hm (internal_length_squared distance2 : ℚ) : ℚ :=
  if distance2 > internal_length_squared then 0
  else
    (1 - distance2 / internal_length_squared) * (1 - distance2 / internal_length_squared)

/-- Neighbour collection of the plain assembler (SmallDeformationNonlocalFEM.h
lines 266-275 via getIntegrationPointCoordinates): only candidates with squared
distance strictly below the squared internal length are kept. -/
def sdCollect (internal_length : ℚ) (cands : List (ℚ × ℚ)) : List (ℚ × ℚ) :=
  cands.filter fun p => decide (p.2 < internal_length * internal_length)

/-- Denominator of the weight normalization (SmallDeformationNonlocalFEM.h
lines 201-224): the kernel-weight sum over the collected neighbours,
Sum of w_m * alpha_0(d2_m). -/
def kernelSum (internal_length : ℚ) (nbrs : List (ℚ × ℚ)) : ℚ :=
  (nbrs.map fun p => p.1 * alpha_0 internal_length p.2).sum

/-- Discovery phase of the plain small-deformation assembler
(SmallDeformationNonlocalFEM.h lines 132-233) for one integration point k:
collects the neighbours and stores alpha_kl = alpha_0(d2_l) / kernelSum.
The source performs no emptiness check here, so the computation always succeeds. -/
def sdNonlocal (internal_length : ℚ) (cands : List (ℚ × ℚ)) : Except String (List ℚ) :=
  Except.ok
    ((sdCollect internal_length cands).map fun p =>
      alpha_0 internal_length p.2 / kernelSum internal_length (sdCollect internal_length cands))

/-- Discovery phase of the hydromechanics assembler
(SmallDeformationNonlocalHydroMechanicsFEM.h lines 197-299) for one integration
point k: collects the neighbours, aborts fatally when none is found, and otherwise
stores alpha_kl already multiplied by the integration weight w_l. -/
def hmNonlocal (internal_length_squared : ℚ) (cands : List (ℚ × ℚ)) :
    Except String (List ℚ) :=
  if (cands.filter fun p => decide (p.2 < internal_length_squared)).length = 0 then
    Except.error "no neighbours found!"
  else
    Except.ok
      ((cands.filter fun p => decide (p.2 < internal_length_squared)).map fun p =>
        alpha_0_hm internal_length_squared p.2 /
            ((cands.filter fun q => decide (q.2 < internal_length_squared)).map fun q =>
              q.1 * alpha_0_hm internal_length_squared q.2).sum *
          p.1)

/-- The one-function integration value computed in assembleWithJacobian
(SmallDeformationNonlocalFEM.h lines 409-434): Sum over neighbours l of
alpha_kl * w_l. -/
def testAlpha (internal_length : ℚ) (nbrs : List (ℚ × ℚ)) : ℚ :=
  (nbrs.map fun p =>
    alpha_0 internal_length p.2 / kernelSum internal_length nbrs * p.1).sum

/-- The partition-of-unity verification in assembleWithJacobian
(SmallDeformationNonlocalFEM.h lines 435-438): fatal when the one-function
integration deviates from one by at least 1e-14. -/
def oneFunctionCheck (test_alpha : ℚ) : Except String Unit :=
  if 1 / 10 ^ 14 ≤ |test_alpha - 1| then
    Except.error "One-function integration failed."
  else Except.ok ()

/-!
Per-integration-point state (IntegrationPointData.h) and the time step commit.
-/

/-- Commit of the material state (spec section 4.4): the previous-step plastic
state snapshot is replaced by the current one.  Modelled from the spec: the
MaterialStateVariables implementation is not under src/. -/
def StateVariables.pushBackState (s : StateVariables) : StateVariables :=
  { s with eps_p_prev := s.eps_p }

/-- Integration point data (IntegrationPointData.h lines 19-101): strain and
stress with their previous-step snapshots, damage, nonlocal kappa_d, material
state, tangent and integration weight. -/
structure IPData where
  sigma : KelvinVector
  sigma_prev : KelvinVector
  eps : KelvinVector
  eps_prev : KelvinVector
  damage : ℝ
  nonlocal_kappa_d : ℝ
  material_state_variables : StateVariables
  C : KelvinMatrix
  integration_weight : ℝ

/-- pushBackState (IntegrationPointData.h lines 72-77): eps_prev := eps,
sigma_prev := sigma, and the material state is committed. -/
def IPData.pushBackState (d : IPData) : IPData :=
  { d with
    eps_prev := d.eps
    sigma_prev := d.sigma
    material_state_variables := d.material_state_variables.pushBackState }

/-- preTimestepConcrete (SmallDeformationNonlocalFEM.h lines 469-480): one
pushBackState call for each integration point of the element. -/
def preTimestepConcrete (ip_data : List IPData) : List IPData :=
  ip_data.map IPData.pushBackState

/-- A concrete material-properties instance used by witnesses and counterexamples:
G = K = 1, m = 2, fc = 3, qp0 = 1, alpha = 0, n = 1, t0 = temp = 0, and the given
tangent formulation mode.  With the unit strain identity2 it produces a trial state
with yield function value one, outside the elastic regime. -/
noncomputable def mkMpEx (tt : ℤ) : MaterialProperties := ⟨1, 1, 2, 3, 1, 0, 1, 0, 0, tt⟩

/-- A concrete all-zero state-variables instance for witnesses. -/
noncomputable def stateEx : StateVariables := ⟨⟨0, 0, 0⟩, ⟨0, 0, 0⟩, 0, 0⟩

/-- A concrete plastic tangent with a nonzero shear-shear entry, used to exhibit the
behaviour of the tangent_type = 0 branch. -/
noncomputable def CpEx : KelvinMatrix := fun i j => if i = 3 ∧ j = 3 then 5 else 0

/-!
Theorems.
-/

/-- Evaluation of the trace of the zero Kelvin vector. -/
lemma trace_zero_kv : trace (0 : KelvinVector) = 0 := by
  rw [trace]
  norm_num

/-- Evaluation of the trace of the Kelvin identity. -/
lemma trace_identity2 : trace identity2 = 3 := by
  rw [trace, show identity2 0 = 1 from rfl, show identity2 1 = 1 from rfl,
    show identity2 2 = 1 from rfl]
  norm_num

/-- The deviatoric projection annihilates the zero vector. -/
lemma dev_zero_kv : deviatoric_projection (0 : KelvinVector) = 0 := by
  funext i
  rw [deviatoric_projection, trace_zero_kv]
  simp

/-- The deviatoric projection annihilates spherical tensors. -/
lemma dev_three_identity2 : deviatoric_projection (fun i => 3 * identity2 i) = 0 := by
  funext i
  rw [deviatoric_projection, show trace (fun i => 3 * identity2 i) = 9 from by
    rw [trace, show identity2 0 = 1 from rfl, show identity2 1 = 1 from rfl,
      show identity2 2 = 1 from rfl]
    norm_num]
  simp only [Pi.zero_apply]
  ring

/-- J2 of the zero deviator vanishes. -/
lemma J2_zero_kv : J2 (0 : KelvinVector) = 0 := by
  rw [J2, squaredNorm]
  simp

/-- The trace of the spherical example tensor. -/
lemma trace_three_identity2 : trace (fun i => 3 * identity2 i) = 9 := by
  rw [trace, show identity2 0 = 1 from rfl, show identity2 1 = 1 from rfl,
    show identity2 2 = 1 from rfl]
  norm_num

/-- The trial stress at the example state: unit moduli, zero previous stress and
strain, strain equal to identity2; the prediction is three times the identity. -/
lemma predict_sigma_ex :
    predict_sigma 1 1 0 identity2 0 (trace identity2) = fun i => 3 * identity2 i := by
  funext i
  rw [predict_sigma]
  have h1 : (identity2 - 0 : KelvinVector) = identity2 := by
    funext j
    simp
  rw [h1, dev_zero_kv, trace_zero_kv, trace_identity2]
  have h2 : deviatoric_projection identity2 i = 0 := by
    rw [deviatoric_projection, trace_identity2]
    ring
  rw [h2]
  simp only [Pi.zero_apply]
  ring

/-- The squared norm of the example trial stress. -/
lemma squaredNorm_ex : squaredNorm (fun i => 3 * identity2 i) = 27 := by
  rw [squaredNorm, Fin.sum_univ_six]
  rw [show identity2 0 = 1 from rfl, show identity2 1 = 1 from rfl,
    show identity2 2 = 1 from rfl, show identity2 3 = 0 from rfl,
    show identity2 4 = 0 from rfl, show identity2 5 = 0 from rfl]
  norm_num

/-- The temperature factor of the example material is one. -/
lemma qhFactor_ex (tt : ℤ) : qhFactor (mkMpEx tt) = 1 := by
  have hbase : (mkMpEx tt).alpha * ((mkMpEx tt).temp - (mkMpEx tt).t0) = (0 : ℝ) := by
    norm_num [mkMpEx]
  rw [qhFactor, hbase, show (mkMpEx tt).n = (1 : ℝ) from rfl, Real.rpow_one,
    show (mkMpEx tt).qp0 = (1 : ℝ) from rfl, show (1 : ℝ) + 0 = 1 from by norm_num,
    Real.one_rpow]
  norm_num

/-- The yield function of the example material at the example trial stress is one,
whatever the hardening argument. -/
lemma yieldFunction_ex (tt : ℤ) (k : ℝ) :
    yieldFunction (mkMpEx tt) (mkPhysicalStress (fun i => 3 * identity2 i)) k = 1 := by
  rw [yieldFunction, qhFactor_ex,
    show (mkPhysicalStress (fun i => 3 * identity2 i)).J_2 =
      J2 (deviatoric_projection (fun i => 3 * identity2 i)) from rfl,
    show (mkPhysicalStress (fun i => 3 * identity2 i)).I_1 =
      trace (fun i => 3 * identity2 i) from rfl,
    dev_three_identity2, J2_zero_kv, trace_three_identity2,
    show (mkMpEx tt).fc = (3 : ℝ) from rfl, show (mkMpEx tt).m = (2 : ℝ) from rfl,
    show (3 : ℝ) * 0 = 0 from by norm_num, Real.sqrt_zero]
  norm_num

/-- At the example state the early-exit condition of integrateStress is false:
the trial stress is nonzero and the yield function value is positive. -/
lemma notCondEx (tt : ℤ) :
    ¬ elasticCondition (mkMpEx tt) stateEx.eps_p.eff
      (predict_sigma (mkMpEx tt).G (mkMpEx tt).K 0 identity2 0 (trace identity2)) := by
  have hpred : predict_sigma (mkMpEx tt).G (mkMpEx tt).K 0 identity2 0 (trace identity2) =
      fun i => 3 * identity2 i := by
    rw [show (mkMpEx tt).G = (1 : ℝ) from rfl, show (mkMpEx tt).K = (1 : ℝ) from rfl,
      predict_sigma_ex]
  intro h
  rw [elasticCondition, hpred] at h
  rcases h with h | h
  · rw [squaredNorm_ex] at h
    norm_num at h
  · rw [show (mkMpEx tt).G • (fun i => 3 * identity2 i) = fun i => 3 * identity2 i from by
      rw [show (mkMpEx tt).G = (1 : ℝ) from rfl, one_smul], yieldFunction_ex] at h
    norm_num at h

/-- The elastic-tangent assignment applied to the zero matrix is exactly the
isotropic elastic stiffness. -/
lemma setElasticTangent_zero (K G : ℝ) :
    setElasticTangent K G 0 = elasticStiffness K G := by
  funext i j
  rw [setElasticTangent, elasticStiffness]
  simp

/-- At zero strain with zero previous state the early-exit condition holds: the
trial stress is exactly zero. -/
lemma condZeroEx :
    elasticCondition (mkMpEx 0) stateEx.eps_p.eff
      (predict_sigma (mkMpEx 0).G (mkMpEx 0).K 0 0 0 (trace 0)) := by
  have hpred : predict_sigma (mkMpEx 0).G (mkMpEx 0).K 0 0 0 (trace 0) =
      (0 : KelvinVector) := by
    funext i
    rw [predict_sigma]
    have h1 : ((0 : KelvinVector) - 0) = (0 : KelvinVector) := by
      funext j
      simp
    rw [h1, dev_zero_kv, trace_zero_kv]
    simp
  rw [elasticCondition, hpred]
  left
  rw [squaredNorm]
  simp

/-- Distributing a common denominator out of the weight sum. -/
lemma sum_map_div_mul (L S : ℚ) (l : List (ℚ × ℚ)) :
    (l.map fun p => alpha_0 L p.2 / S * p.1).sum =
      (l.map fun p => p.1 * alpha_0 L p.2).sum / S := by
  induction l with
  | nil => simp
  | cons a t ih =>
      simp only [List.map_cons, List.sum_cons, ih]
      ring

/-- C10: calculateIsotropicHardening returns its first argument m0 unchanged for every
effective plastic strain, and consequently the yield function value used inside
integrateStress does not depend on the accumulated effective plastic strain. -/
theorem calculateIsotropicHardening_constant (m0 eps_p_eff : ℝ) :
    calculateIsotropicHardening m0 eps_p_eff = m0 ∧
      ∀ (mp : MaterialProperties) (s : PhysicalStressWithInvariants) (e1 e2 : ℝ),
        yieldFunction mp s (calculateIsotropicHardening mp.m e1) =
          yieldFunction mp s (calculateIsotropicHardening mp.m e2) := by
  constructor
  · simp [calculateIsotropicHardening]
  · intro mp s e1 e2
    rfl

/-- C9: pushBackState copies the current strain and stress into the previous-step
snapshots and commits the material state, leaving the current strain, stress, damage,
tangent and integration weight unchanged; preTimestepConcrete applies it exactly once
per integration point. -/
theorem pushBackState_commits (d : IPData) :
    d.pushBackState.eps_prev = d.eps ∧
      d.pushBackState.sigma_prev = d.sigma ∧
      d.pushBackState.material_state_variables =
        d.material_state_variables.pushBackState ∧
      d.pushBackState.material_state_variables.eps_p_prev =
        d.material_state_variables.eps_p ∧
      d.pushBackState.eps = d.eps ∧
      d.pushBackState.sigma = d.sigma ∧
      d.pushBackState.damage = d.damage ∧
      d.pushBackState.C = d.C ∧
      d.pushBackState.integration_weight = d.integration_weight ∧
      ∀ ip_data : List IPData,
        preTimestepConcrete ip_data = ip_data.map IPData.pushBackState ∧
          (preTimestepConcrete ip_data).length = ip_data.length := by
  refine ⟨rfl, rfl, rfl, rfl, rfl, rfl, rfl, rfl, rfl, ?_⟩
  intro ip_data
  exact ⟨rfl, List.length_map _ _⟩

/-- C5: the unnormalized kernel weight equals (1 - d2/L^2)^2 below the squared internal
length and vanishes otherwise; beyond the squared internal length the normalized mutual
weight is exactly zero, and the hydromechanics variant computes the same kernel. -/
theorem alpha_0_compact_support (L d2 S w : ℚ) (hL : 0 < L) :
    (d2 < L * L → alpha_0 L d2 = (1 - d2 / (L * L)) ^ 2) ∧
      (L * L ≤ d2 → alpha_0 L d2 = 0) ∧
      (L * L < d2 →
        alpha_0 L d2 / S = 0 ∧ alpha_0 L d2 / S * w = 0) ∧
      alpha_0_hm (L * L) d2 = alpha_0 L d2 := by
  have hL2 : L * L ≠ 0 := by positivity
  refine ⟨?_, ?_, ?_, rfl⟩
  · intro h
    rw [alpha_0, if_neg (by linarith), sq]
  · intro h
    rcases lt_or_eq_of_le h with h | h
    · rw [alpha_0, if_pos h]
    · rw [alpha_0, if_neg (by simp [← h]), ← h, div_self hL2]
      ring
  · intro h
    rw [alpha_0, if_pos h]
    simp

/-- C2: with a positive kernel-weight sum, the normalized nonlocal weights stored by
the discovery phase integrate the one-function exactly to one; the assembleWithJacobian
check therefore passes, and any one-function value off by at least the 1e-14 tolerance
is a fatal error. -/
theorem nonlocal_partition_of_unity (L : ℚ) (cands : List (ℚ × ℚ))
    (hS : 0 < kernelSum L (sdCollect L cands)) :
    testAlpha L (sdCollect L cands) = 1 ∧
      oneFunctionCheck (testAlpha L (sdCollect L cands)) = Except.ok () ∧
      (∀ t : ℚ, 1 / 10 ^ 14 ≤ |t - 1| →
        oneFunctionCheck t = Except.error "One-function integration failed.") ∧
      sdNonlocal L cands =
        Except.ok ((sdCollect L cands).map fun p =>
          alpha_0 L p.2 / kernelSum L (sdCollect L cands)) := by
  have h1 : testAlpha L (sdCollect L cands) = 1 := by
    rw [testAlpha, sum_map_div_mul, ← kernelSum, div_self (ne_of_gt hS)]
  refine ⟨h1, ?_, ?_, rfl⟩
  · rw [h1, oneFunctionCheck, if_neg]
    norm_num
  · intro t ht
    rw [oneFunctionCheck, if_pos ht]

/-- C2 witness: a single neighbour of weight one at distance zero with internal
length one. -/
theorem nonlocal_partition_of_unity_witness :
    (0 : ℚ) < kernelSum 1 (sdCollect 1 [(1, 0)]) ∧
      testAlpha 1 (sdCollect 1 [(1, 0)]) = 1 := by
  have hc : sdCollect 1 [((1 : ℚ), (0 : ℚ))] = [(1, 0)] := by
    norm_num [sdCollect, List.filter_cons]
  have hk : (0 : ℚ) < kernelSum 1 (sdCollect 1 [((1 : ℚ), (0 : ℚ))]) := by
    rw [hc]
    norm_num [kernelSum, alpha_0]
  exact ⟨hk, (nonlocal_partition_of_unity 1 [(1, 0)] hk).1⟩

/-- C5 witness: internal length one, squared distance two. -/
theorem alpha_0_compact_support_witness :
    (0 : ℚ) < 1 ∧ alpha_0 1 2 = 0 ∧ alpha_0 1 2 / 5 = 0 :=
  ⟨by norm_num, (alpha_0_compact_support 1 2 5 7 (by norm_num)).2.1 (by norm_num),
    ((alpha_0_compact_support 1 2 5 7 (by norm_num)).2.2.1 (by norm_num)).1⟩

/-- C7 counterexample: the plain small-deformation assembler does not fail fatally on
an empty neighbour set; its discovery phase returns an (empty) result, so the claim
that every local-assembler variant aborts with "no neighbours found" is false. -/
theorem sd_discovery_no_fatal_cex :
    sdCollect 1 [(1, 4)] = [] ∧ sdNonlocal 1 [(1, 4)] = Except.ok [] := by
  have hc : sdCollect 1 [((1 : ℚ), (4 : ℚ))] = [] := by
    norm_num [sdCollect, List.filter_cons]
  refine ⟨hc, ?_⟩
  rw [sdNonlocal, hc]
  rfl

/-- C7 (amended): on an empty neighbour set the hydromechanics assembler fails fatally
with the "no neighbours found" diagnostic, while the plain small-deformation assembler
performs no such check and always returns a (possibly empty) weight list. -/
theorem discovery_empty_neighbors (L2 : ℚ) (cands : List (ℚ × ℚ))
    (h : (cands.filter fun p => decide (p.2 < L2)).length = 0) :
    hmNonlocal L2 cands = Except.error "no neighbours found!" ∧
      ∀ (L : ℚ) (cands2 : List (ℚ × ℚ)),
        sdNonlocal L cands2 =
          Except.ok ((sdCollect L cands2).map fun p =>
            alpha_0 L p.2 / kernelSum L (sdCollect L cands2)) := by
  constructor
  · rw [hmNonlocal, if_pos h]
  · intro L cands2
    rfl

/-- C7 witness: a lone candidate beyond the interaction radius. -/
theorem discovery_empty_neighbors_witness :
    (List.filter (fun p => decide (p.2 < (1 : ℚ))) [((2 : ℚ), (9 : ℚ))]).length = 0 ∧
      hmNonlocal 1 [(2, 9)] = Except.error "no neighbours found!" := by
  have hf : (List.filter (fun p => decide (p.2 < (1 : ℚ))) [((2 : ℚ), (9 : ℚ))]).length = 0 := by
    norm_num [List.filter_cons]
  exact ⟨hf, (discovery_empty_neighbors 1 [(2, 9)] hf).1⟩

/-- C4: for a nonnegative driving variable and valid parameters, calculateDamage
returns exactly (1 - beta_d) * (1 - exp(-kappa_d / alpha_d)); the value lies in [0,1]
and the out-of-range ERR report is not triggered.  The first conjunct holds with no
hypothesis at all: the returned value is never clamped or corrected. -/
theorem calculateDamage_bounds (dp : DamageProperties) (kappa_d : ℝ)
    (hk : 0 ≤ kappa_d) (ha : 0 < dp.alpha_d) (hb0 : 0 ≤ dp.beta_d)
    (hb1 : dp.beta_d ≤ 1) :
    calculateDamage dp kappa_d =
        (1 - dp.beta_d) * (1 - Real.exp (-kappa_d / dp.alpha_d)) ∧
      0 ≤ calculateDamage dp kappa_d ∧ calculateDamage dp kappa_d ≤ 1 ∧
      ¬ damageOutOfRange dp kappa_d := by
  have hexp_pos : 0 < Real.exp (-kappa_d / dp.alpha_d) := Real.exp_pos _
  have hexp_le : Real.exp (-kappa_d / dp.alpha_d) ≤ 1 := by
    rw [show (1 : ℝ) = Real.exp 0 from Real.exp_zero.symm]
    exact Real.exp_le_exp.mpr (div_nonpos_of_nonpos_of_nonneg (by linarith) ha.le)
  have h0 : 0 ≤ calculateDamage dp kappa_d := by
    rw [calculateDamage]
    have := mul_nonneg (by linarith : (0 : ℝ) ≤ 1 - dp.beta_d)
      (by linarith : (0 : ℝ) ≤ 1 - Real.exp (-kappa_d / dp.alpha_d))
    linarith
  have h1 : calculateDamage dp kappa_d ≤ 1 := by
    rw [calculateDamage]
    nlinarith
  refine ⟨rfl, h0, h1, ?_⟩
  rintro (h | h) <;> linarith

/-- C4 witness: alpha_d = 1, beta_d = 0, kappa_d = 0. -/
theorem calculateDamage_bounds_witness :
    (0 : ℝ) ≤ 0 ∧ (0 : ℝ) < 1 ∧
      0 ≤ calculateDamage ⟨1, 0, 0, 0⟩ 0 ∧ calculateDamage ⟨1, 0, 0, 0⟩ 0 ≤ 1 :=
  ⟨le_refl 0, by norm_num,
    (calculateDamage_bounds ⟨1, 0, 0, 0⟩ 0 (le_refl 0) (by norm_num) (le_refl 0)
      (by norm_num)).2.1,
    (calculateDamage_bounds ⟨1, 0, 0, 0⟩ 0 (le_refl 0) (by norm_num) (le_refl 0)
      (by norm_num)).2.2.1⟩

/-- For a nonnegative h_d the brittleness factor x_s is at least one, in each of its
three branches. -/
lemma one_le_damage_x_s (h_d r_s : ℝ) (h : 0 ≤ h_d) : 1 ≤ damage_x_s h_d r_s := by
  rw [damage_x_s]
  split_ifs with h1 h2
  · exact le_refl 1
  · nlinarith [mul_self_nonneg (r_s - 1)]
  · push_neg at h1
    have h3 : 2 < r_s := by
      by_contra h4
      push_neg at h4
      exact h2 ⟨h1, h4⟩
    have hs : 1 ≤ Real.sqrt (r_s - 1) :=
      calc (1 : ℝ) = Real.sqrt 1 := Real.sqrt_one.symm
        _ ≤ Real.sqrt (r_s - 1) := Real.sqrt_le_sqrt (by linarith)
    nlinarith

/-- C8: the damage driving variable never decreases: for a nonnegative effective
plastic strain increment, any principal stresses, any fc and nonnegative h_d,
calculateDamageKappaD is at least kappa_d_prev. -/
theorem calculateDamageKappaD_monotone (dp : DamageProperties) (fc : ℝ)
    (principal : Fin 3 → ℝ) (eps_p_eff_diff kappa_d_prev : ℝ)
    (hdiff : 0 ≤ eps_p_eff_diff) (hhd : 0 ≤ dp.h_d) :
    kappa_d_prev ≤ calculateDamageKappaD dp fc principal eps_p_eff_diff kappa_d_prev := by
  rw [calculateDamageKappaD]
  have hx := one_le_damage_x_s dp.h_d
    (Real.sqrt (∑ i, principal i * principal i) / fc) hhd
  have h0 : 0 ≤ eps_p_eff_diff /
      damage_x_s dp.h_d (Real.sqrt (∑ i, principal i * principal i) / fc) :=
    div_nonneg hdiff (by linarith)
  linarith

/-- C8 witness: zero plastic strain increment and zero brittleness parameter. -/
theorem calculateDamageKappaD_monotone_witness :
    (0 : ℝ) ≤ 0 ∧
      (3 : ℝ) ≤ calculateDamageKappaD ⟨1, 0, 0, 0⟩ 1 (fun _ => 0) 0 3 :=
  ⟨le_refl 0,
    calculateDamageKappaD_monotone ⟨1, 0, 0, 0⟩ 1 (fun _ => 0) 0 3 (le_refl 0)
      (le_refl 0)⟩

/-- C1: for positive bulk and shear moduli and any strain whose trial state
(predicted from zero previous stress and zero previous strain) is exactly zero or has
a negative yield function value, integrateStress returns the closed-form
linear-elastic stress 2 G eps + (K - 2 G / 3) trace(eps) I together with the
isotropic elastic stiffness, and the plastic Newton solve is not performed. -/
theorem integrateStress_elastic_regime (mp : MaterialProperties)
    (state : StateVariables) (eps : KelvinVector)
    (newtonOutcome : Option (KelvinVector × PlasticStrainVars))
    (plasticTangent : KelvinMatrix) (hK : 0 < mp.K) (hG : 0 < mp.G)
    (hcond : elasticCondition mp state.eps_p.eff
      (predict_sigma mp.G mp.K 0 eps 0 (trace eps))) :
    integrateStress mp state 0 eps 0 newtonOutcome plasticTangent =
      IntegrateOutcome.ok
        (fun i => 2 * mp.G * eps i + (mp.K - 2 * mp.G / 3) * trace eps * identity2 i)
        (elasticStiffness mp.K mp.G) false := by
  have hsig : mp.G • predict_sigma mp.G mp.K 0 eps 0 (trace eps) =
      fun i => 2 * mp.G * eps i + (mp.K - 2 * mp.G / 3) * trace eps * identity2 i := by
    funext i
    rw [Pi.smul_apply, smul_eq_mul, predict_sigma]
    have h1 : ((eps - 0 : KelvinVector)) = eps := by
      funext j
      simp
    rw [h1, dev_zero_kv, trace_zero_kv, deviatoric_projection]
    simp only [Pi.zero_apply, trace]
    field_simp
    ring
  unfold integrateStress
  rw [if_pos hcond, hsig, setElasticTangent_zero]

/-- C1 witness: unit moduli and zero strain; the trial stress is exactly zero. -/
theorem integrateStress_elastic_regime_witness :
    (0 : ℝ) < (mkMpEx 0).K ∧ (0 : ℝ) < (mkMpEx 0).G ∧
      integrateStress (mkMpEx 0) stateEx 0 0 0 none 0 =
        IntegrateOutcome.ok
          (fun i => 2 * (mkMpEx 0).G * (0 : KelvinVector) i +
            ((mkMpEx 0).K - 2 * (mkMpEx 0).G / 3) * trace (0 : KelvinVector) *
              identity2 i)
          (elasticStiffness (mkMpEx 0).K (mkMpEx 0).G) false :=
  ⟨by norm_num [mkMpEx], by norm_num [mkMpEx],
    integrateStress_elastic_regime (mkMpEx 0) stateEx 0 none 0
      (by norm_num [mkMpEx]) (by norm_num [mkMpEx]) condZeroEx⟩

/-- C3: when the Newton-Raphson plastic solve fails to bring the residual norm below
tolerance within the iteration budget, integrateStress returns the empty result
(no stress, no state, no tangent), and the preAssemble caller turns this into the
fatal "Computation of local constitutive relation failed." condition. -/
theorem integrateStress_nonconvergence_empty (mp : MaterialProperties)
    (state : StateVariables) (eps_prev eps sigma_prev : KelvinVector)
    (plasticTangent : KelvinMatrix) (resNorm : (Fin 15 → ℝ) → ℝ) (tol : ℝ)
    (update : (Fin 15 → ℝ) → Fin 15 → ℝ) (fuel : ℕ) (x0 : Fin 15 → ℝ)
    (hcond : ¬ elasticCondition mp state.eps_p.eff
      (predict_sigma mp.G mp.K sigma_prev eps eps_prev (trace eps)))
    (hN : newtonSolve resNorm tol update fuel x0 = none) :
    integrateStress mp state eps_prev eps sigma_prev
        ((newtonSolve resNorm tol update fuel x0).map fun s =>
          ((splitSolutionVector s).1, (splitSolutionVector s).2.1))
        plasticTangent = IntegrateOutcome.nonconverged ∧
      preAssembleCheck
          (integrateStress mp state eps_prev eps sigma_prev
            ((newtonSolve resNorm tol update fuel x0).map fun s =>
              ((splitSolutionVector s).1, (splitSolutionVector s).2.1))
            plasticTangent) =
        Except.error "Computation of local constitutive relation failed." := by
  have h1 : integrateStress mp state eps_prev eps sigma_prev
      ((newtonSolve resNorm tol update fuel x0).map fun s =>
        ((splitSolutionVector s).1, (splitSolutionVector s).2.1))
      plasticTangent = IntegrateOutcome.nonconverged := by
    rw [hN]
    unfold integrateStress
    rw [if_neg hcond]
    rfl
  exact ⟨h1, by rw [h1]; rfl⟩

/-- C3 witness: a solver with constant residual norm one, tolerance zero and an
exhausted iteration budget; at the example plastic trial state integrateStress
returns the empty result. -/
theorem integrateStress_nonconvergence_empty_witness :
    newtonSolve (fun _ : Fin 15 → ℝ => (1 : ℝ)) 0 id 0 (fun _ => 0) = none ∧
      integrateStress (mkMpEx 0) stateEx 0 identity2 0
          ((newtonSolve (fun _ : Fin 15 → ℝ => (1 : ℝ)) 0 id 0 (fun _ => 0)).map
            fun s => ((splitSolutionVector s).1, (splitSolutionVector s).2.1))
          0 = IntegrateOutcome.nonconverged :=
  ⟨rfl,
    (integrateStress_nonconvergence_empty (mkMpEx 0) stateEx 0 identity2 0 0
      (fun _ => (1 : ℝ)) 0 id 0 (fun _ => 0) (notCondEx 0) rfl).1⟩

/-- C6 counterexample: with tangent formulation mode 0 after a converged plastic
solve, the returned tangent is not the isotropic elastic stiffness: the assignment
only overwrites the top-left three-by-three block before adding 2 G times the
identity, so entries of the plastic tangent outside that block survive.  Here the
plastic tangent has entry five at position (3,3); the returned tangent has seven
there while the elastic stiffness has two. -/
theorem tangent_type_zero_not_elastic_cex :
    integrateStress (mkMpEx 0) stateEx 0 identity2 0 (some (0, ⟨0, 0, 0⟩)) CpEx =
        IntegrateOutcome.ok ((mkMpEx 0).G • (0 : KelvinVector))
          (setElasticTangent (mkMpEx 0).K (mkMpEx 0).G CpEx) true ∧
      setElasticTangent (mkMpEx 0).K (mkMpEx 0).G CpEx 3 3 = 7 ∧
      elasticStiffness (mkMpEx 0).K (mkMpEx 0).G 3 3 = 2 ∧
      setElasticTangent (mkMpEx 0).K (mkMpEx 0).G CpEx ≠
        elasticStiffness (mkMpEx 0).K (mkMpEx 0).G := by
  have hv : ¬((3 : Fin 6).val < 3 ∧ (3 : Fin 6).val < 3) := by decide
  have h33 : setElasticTangent (mkMpEx 0).K (mkMpEx 0).G CpEx 3 3 = 7 := by
    simp only [setElasticTangent]
    rw [if_neg hv]
    norm_num [CpEx, mkMpEx]
  have e33 : elasticStiffness (mkMpEx 0).K (mkMpEx 0).G 3 3 = 2 := by
    simp only [elasticStiffness]
    rw [if_neg hv]
    norm_num [mkMpEx]
  refine ⟨?_, h33, e33, ?_⟩
  · unfold integrateStress
    rw [if_neg (notCondEx 0)]
    rfl
  · intro h
    have := congrFun (congrFun h 3) 3
    rw [h33, e33] at this
    norm_num at this

/-- C6 (amended): after a converged plastic solve, mode 0 overwrites the top-left
three-by-three block of the computed tangent with K - 2/3 G and adds 2 G times the
identity (so plastic entries outside that block survive), mode 1 scales the computed
tangent by (1 - damage), mode 2 leaves it unchanged, and every other mode value is
the fatal tangent_type configuration error. -/
theorem tangent_type_dispatch (mp : MaterialProperties) (state : StateVariables)
    (eps_prev eps sigma_prev : KelvinVector)
    (sol : KelvinVector × PlasticStrainVars) (plasticTangent : KelvinMatrix)
    (hcond : ¬ elasticCondition mp state.eps_p.eff
      (predict_sigma mp.G mp.K sigma_prev eps eps_prev (trace eps))) :
    (mp.tangent_type = 0 →
      integrateStress mp state eps_prev eps sigma_prev (some sol) plasticTangent =
        IntegrateOutcome.ok (mp.G • sol.1)
          (setElasticTangent mp.K mp.G plasticTangent) true) ∧
    (mp.tangent_type = 1 →
      integrateStress mp state eps_prev eps sigma_prev (some sol) plasticTangent =
        IntegrateOutcome.ok (mp.G • sol.1) ((1 - state.damage) • plasticTangent) true) ∧
    (mp.tangent_type = 2 →
      integrateStress mp state eps_prev eps sigma_prev (some sol) plasticTangent =
        IntegrateOutcome.ok (mp.G • sol.1) plasticTangent true) ∧
    (mp.tangent_type ≠ 0 → mp.tangent_type ≠ 1 → mp.tangent_type ≠ 2 →
      integrateStress mp state eps_prev eps sigma_prev (some sol) plasticTangent =
        IntegrateOutcome.fatal
          "Inadmissible value for tangent_type: 0 = Elastic; 1 = Plastic-Damage secant; 2 = Plastic.") := by
  have hbase : integrateStress mp state eps_prev eps sigma_prev (some sol) plasticTangent =
      (if mp.tangent_type = 0 then
        IntegrateOutcome.ok (mp.G • sol.1)
          (setElasticTangent mp.K mp.G plasticTangent) true
      else if mp.tangent_type = 1 then
        IntegrateOutcome.ok (mp.G • sol.1) ((1 - state.damage) • plasticTangent) true
      else if mp.tangent_type = 2 then
        IntegrateOutcome.ok (mp.G • sol.1) plasticTangent true
      else
        IntegrateOutcome.fatal
          "Inadmissible value for tangent_type: 0 = Elastic; 1 = Plastic-Damage secant; 2 = Plastic.") := by
    unfold integrateStress
    rw [if_neg hcond]
  refine ⟨fun h => ?_, fun h => ?_, fun h => ?_, fun h0 h1 h2 => ?_⟩
  · rw [hbase, if_pos h]
  · rw [hbase, if_neg (by rw [h]; norm_num), if_pos h]
  · rw [hbase, if_neg (by rw [h]; norm_num), if_neg (by rw [h]; norm_num), if_pos h]
  · rw [hbase, if_neg h0, if_neg h1, if_neg h2]

/-- C6 witness: the example plastic trial state with mode 2 returns the computed
plastic tangent unchanged. -/
theorem tangent_type_dispatch_witness :
    integrateStress (mkMpEx 2) stateEx 0 identity2 0 (some (0, ⟨0, 0, 0⟩)) CpEx =
      IntegrateOutcome.ok ((mkMpEx 2).G • (0 : KelvinVector)) CpEx true :=
  (tangent_type_dispatch (mkMpEx 2) stateEx 0 identity2 0 (0, ⟨0, 0, 0⟩) CpEx
    (notCondEx 2)).2.2.1 rfl

end OgsSpec
